import Mathlib

/-!
Shallow embedding of the ESP32-MutexGuard library (src/src/MutexGuard.h,
src/src/MutexGuard.cpp, src/src/RecursiveMutexGuard.h,
src/src/RecursiveMutexGuard.cpp).

Each guard is a record of its two fields `m_handle` and `m_taken`.  The host
RTOS primitives (`xSemaphoreTake`, `xSemaphoreGive`, their recursive variants,
`xPortInIsrContext`, and the log macros) are external collaborators: calls to
them are recorded as events in a trace, and their answers (whether we are in
ISR context, whether a timed take succeeds) are inputs chosen by the
environment.
-/

/-- FreeRTOS `SemaphoreHandle_t`; a null pointer is `none`. -/
abbrev SemaphoreHandle := Option Nat

/-- FreeRTOS `TickType_t`. -/
abbrev TickType := Nat

/-- Observable calls made by a guard into the host primitives: the timed
acquire with its outcome, the release, their recursive variants, and the
warning / error log macros. -/
inductive MGEvent where
  | take (timeout : TickType) (success : Bool)
  | give
  | takeRecursive (timeout : TickType) (success : Bool)
  | giveRecursive
  | logW
  | logE
  deriving DecidableEq

/-- Environment answers sampled during construction: the result of
`xPortInIsrContext()` and the result the RTOS gives to the timed take. -/
structure MGEnv where
  inIsr : Bool
  takeResult : Bool
  deriving DecidableEq

/-- State of a `MutexGuard` instance: its two data members. -/
structure MutexGuard where
  m_handle : SemaphoreHandle
  m_taken : Bool
  deriving DecidableEq

/-- State of a `RecursiveMutexGuard` instance: its two data members. -/
structure RecursiveMutexGuard where
  m_handle : SemaphoreHandle
  m_taken : Bool
  deriving DecidableEq

namespace MutexGuard

/-- `MutexGuard::MutexGuard(handle, timeout)` from MutexGuard.cpp: null-handle
check (warning, no acquisition), ISR check (error, handle cleared, no
acquisition), otherwise a timed `xSemaphoreTake` whose success becomes
`m_taken`.  Returns the constructed state and the trace of primitive calls. -/
def construct (env : MGEnv) (handle : SemaphoreHandle) (timeout : TickType) :
    MutexGuard × List MGEvent :=
  if handle = none then
    ({ m_handle := handle, m_taken := false }, [MGEvent.logW])
  else if env.inIsr then
    ({ m_handle := none, m_taken := false }, [MGEvent.logE])
  else
    ({ m_handle := handle, m_taken := env.takeResult },
     [MGEvent.take timeout env.takeResult])

/-- `MutexGuard::hasLock()`: returns `m_taken`. -/
def hasLock (g : MutexGuard) : Bool := g.m_taken

/-- `MutexGuard::isValid()`: returns `m_handle != nullptr`. -/
def isValid (g : MutexGuard) : Bool := g.m_handle.isSome

/-- `MutexGuard::operator bool()`: returns `hasLock()`. -/
def toBool (g : MutexGuard) : Bool := g.hasLock

/-- `MutexGuard::unlock()` from MutexGuard.cpp: only acts when
`m_taken && m_handle != nullptr`; refuses with an error log in ISR context;
otherwise calls `xSemaphoreGive` and clears `m_taken`.  The `inIsr` argument
is the result of the `xPortInIsrContext()` query at call time. -/
def unlock (inIsr : Bool) (g : MutexGuard) : MutexGuard × List MGEvent :=
  if g.m_taken && g.m_handle.isSome then
    if inIsr then (g, [MGEvent.logE])
    else ({ g with m_taken := false }, [MGEvent.give])
  else
    (g, [])

/-- `MutexGuard::~MutexGuard()`: calls `unlock()`. -/
def destruct (inIsr : Bool) (g : MutexGuard) : MutexGuard × List MGEvent :=
  unlock inIsr g

/-- The invariant of §3 of the spec: a null stored handle implies the lock is
not held. -/
def Inv (g : MutexGuard) : Prop := g.m_handle = none → g.m_taken = false

end MutexGuard

namespace RecursiveMutexGuard

/-- `RecursiveMutexGuard::RecursiveMutexGuard(handle, timeout)` from
RecursiveMutexGuard.cpp: identical structure to the non-recursive
constructor, with `xSemaphoreTakeRecursive` as the acquire primitive. -/
def construct (env : MGEnv) (handle : SemaphoreHandle) (timeout : TickType) :
    RecursiveMutexGuard × List MGEvent :=
  if handle = none then
    ({ m_handle := handle, m_taken := false }, [MGEvent.logW])
  else if env.inIsr then
    ({ m_handle := none, m_taken := false }, [MGEvent.logE])
  else
    ({ m_handle := handle, m_taken := env.takeResult },
     [MGEvent.takeRecursive timeout env.takeResult])

/-- `RecursiveMutexGuard::hasLock()`: returns `m_taken`. -/
def hasLock (g : RecursiveMutexGuard) : Bool := g.m_taken

/-- `RecursiveMutexGuard::isValid()`: returns `m_handle != nullptr`. -/
def isValid (g : RecursiveMutexGuard) : Bool := g.m_handle.isSome

/-- `RecursiveMutexGuard::operator bool()`: returns `hasLock()`. -/
def toBool (g : RecursiveMutexGuard) : Bool := g.hasLock

/-- `RecursiveMutexGuard::unlock()` from RecursiveMutexGuard.cpp: identical
structure to the non-recursive `unlock`, with `xSemaphoreGiveRecursive` as
the release primitive. -/
def unlock (inIsr : Bool) (g : RecursiveMutexGuard) :
    RecursiveMutexGuard × List MGEvent :=
  if g.m_taken && g.m_handle.isSome then
    if inIsr then (g, [MGEvent.logE])
    else ({ g with m_taken := false }, [MGEvent.giveRecursive])
  else
    (g, [])

/-- `RecursiveMutexGuard::~RecursiveMutexGuard()`: calls `unlock()`. -/
def destruct (inIsr : Bool) (g : RecursiveMutexGuard) :
    RecursiveMutexGuard × List MGEvent :=
  unlock inIsr g

/-- The invariant of §3 of the spec for the recursive guard: a null stored
handle implies the lock is not held. -/
def Inv (g : RecursiveMutexGuard) : Prop := g.m_handle = none → g.m_taken = false

end RecursiveMutexGuard

/-- A caller-visible operation on a live guard between construction and
destruction.  The only mutating member is `unlock()`; `hasLock()`,
`isValid()` and `operator bool()` are const and do not change the state.
Each `unlock` carries the ISR-context answer at its call time. -/
inductive MGOp where
  | unlockOp (inIsr : Bool)
  deriving DecidableEq

namespace MutexGuard

/-- Run a sequence of caller operations on a guard, accumulating the trace of
primitive calls. -/
def runOps : MutexGuard → List MGOp → MutexGuard × List MGEvent
  | g, [] => (g, [])
  | g, MGOp.unlockOp isr :: ops =>
    ((runOps (unlock isr g).1 ops).1,
     (unlock isr g).2 ++ (runOps (unlock isr g).1 ops).2)

/-- A complete lifetime of one `MutexGuard` instance: construction, any
sequence of `unlock()` calls, then destruction (with its own ISR-context
answer).  Returns the final state and the full primitive-call trace. -/
def lifetime (env : MGEnv) (handle : SemaphoreHandle) (timeout : TickType)
    (ops : List MGOp) (destIsr : Bool) : MutexGuard × List MGEvent :=
  ((destruct destIsr (runOps (construct env handle timeout).1 ops).1).1,
   (construct env handle timeout).2 ++
     (runOps (construct env handle timeout).1 ops).2 ++
     (destruct destIsr (runOps (construct env handle timeout).1 ops).1).2)

end MutexGuard

namespace RecursiveMutexGuard

/-- Run a sequence of caller operations on a recursive guard, accumulating
the trace of primitive calls. -/
def runOps : RecursiveMutexGuard → List MGOp → RecursiveMutexGuard × List MGEvent
  | g, [] => (g, [])
  | g, MGOp.unlockOp isr :: ops =>
    ((runOps (unlock isr g).1 ops).1,
     (unlock isr g).2 ++ (runOps (unlock isr g).1 ops).2)

/-- A complete lifetime of one `RecursiveMutexGuard` instance. -/
def lifetime (env : MGEnv) (handle : SemaphoreHandle) (timeout : TickType)
    (ops : List MGOp) (destIsr : Bool) : RecursiveMutexGuard × List MGEvent :=
  ((destruct destIsr (runOps (construct env handle timeout).1 ops).1).1,
   (construct env handle timeout).2 ++
     (runOps (construct env handle timeout).1 ops).2 ++
     (destruct destIsr (runOps (construct env handle timeout).1 ops).1).2)

end RecursiveMutexGuard

/-- Is this event a call of the non-recursive release primitive
`xSemaphoreGive`? -/
def isGive : MGEvent → Bool
  | MGEvent.give => true
  | _ => false

/-- Is this event a call of the recursive release primitive
`xSemaphoreGiveRecursive`? -/
def isGiveRecursive : MGEvent → Bool
  | MGEvent.giveRecursive => true
  | _ => false

/-- Number of `xSemaphoreGive` calls in a trace. -/
def countGive (es : List MGEvent) : Nat := es.countP isGive

/-- Number of `xSemaphoreGiveRecursive` calls in a trace. -/
def countGiveRecursive (es : List MGEvent) : Nat := es.countP isGiveRecursive

/-- View a non-recursive guard state as a recursive guard state: both classes
have exactly the fields `m_handle` and `m_taken`. -/
def toRecursive (g : MutexGuard) : RecursiveMutexGuard :=
  { m_handle := g.m_handle, m_taken := g.m_taken }

/-- Substitute the recursive acquire/release primitives for the
non-recursive ones in a trace event. -/
def substRecursive : MGEvent → MGEvent
  | MGEvent.take t b => MGEvent.takeRecursive t b
  | MGEvent.give => MGEvent.giveRecursive
  | e => e

namespace MutexGuard

theorem unlock_not_taken (isr : Bool) (g : MutexGuard) (h : g.m_taken = false) :
    unlock isr g = (g, []) := by
  simp [unlock, h]

theorem unlock_none (isr : Bool) (g : MutexGuard) (h : g.m_handle = none) :
    unlock isr g = (g, []) := by
  simp [unlock, h]

theorem unlock_handle (isr : Bool) (g : MutexGuard) :
    (unlock isr g).1.m_handle = g.m_handle := by
  unfold unlock
  split
  · split <;> rfl
  · rfl

theorem unlock_inv (isr : Bool) (g : MutexGuard) (h : Inv g) :
    Inv (unlock isr g).1 := by
  intro hn
  rw [unlock_handle] at hn
  rw [unlock_none isr g hn]
  exact h hn

theorem unlock_taken_after (g : MutexGuard) (h : Inv g) :
    (unlock false g).1.m_taken = false := by
  by_cases ht : g.m_taken = true
  · have hs : g.m_handle.isSome = true := by
      cases hh : g.m_handle with
      | none => exact absurd (h hh) (by simp [ht])
      | some v => rfl
    simp [unlock, ht, hs]
  · have ht' : g.m_taken = false := by
      cases hb : g.m_taken
      · rfl
      · exact absurd hb ht
    rw [unlock_not_taken false g ht']
    exact ht'

theorem runOps_none (ops : List MGOp) (g : MutexGuard) (h : g.m_handle = none) :
    runOps g ops = (g, []) := by
  induction ops with
  | nil => rfl
  | cons op ops ih =>
    cases op with
    | unlockOp isr => simp [runOps, unlock_none isr g h, ih]

theorem runOps_handle (ops : List MGOp) :
    ∀ g : MutexGuard, (runOps g ops).1.m_handle = g.m_handle := by
  induction ops with
  | nil => intro g; rfl
  | cons op ops ih =>
    intro g
    cases op with
    | unlockOp isr =>
      simp only [runOps]
      rw [ih, unlock_handle]

theorem runOps_inv (ops : List MGOp) :
    ∀ g : MutexGuard, Inv g → Inv (runOps g ops).1 := by
  induction ops with
  | nil => intro g h; exact h
  | cons op ops ih =>
    intro g h
    cases op with
    | unlockOp isr =>
      simp only [runOps]
      exact ih _ (unlock_inv isr g h)

theorem runOps_append (ops ops' : List MGOp) :
    ∀ g : MutexGuard,
      runOps g (ops ++ ops') =
        ((runOps (runOps g ops).1 ops').1,
         (runOps g ops).2 ++ (runOps (runOps g ops).1 ops').2) := by
  induction ops with
  | nil => intro g; simp [runOps]
  | cons op ops ih =>
    intro g
    cases op with
    | unlockOp isr => simp [runOps, ih, List.append_assoc]

theorem construct_inv (env : MGEnv) (handle : SemaphoreHandle) (timeout : TickType) :
    Inv (construct env handle timeout).1 := by
  cases handle with
  | none => intro _; simp [construct]
  | some v =>
    by_cases hi : env.inIsr = true
    · intro _; simp [construct, hi]
    · intro hn
      simp [construct, hi] at hn

theorem construct_taken_mem (env : MGEnv) (handle : SemaphoreHandle)
    (timeout : TickType) (h : (construct env handle timeout).1.m_taken = true) :
    MGEvent.take timeout true ∈ (construct env handle timeout).2 := by
  cases handle with
  | none => simp [construct] at h
  | some v =>
    by_cases hi : env.inIsr = true
    · simp [construct, hi] at h
    · simp [construct, hi] at h
      simp [construct, hi, h]

theorem countGive_construct (env : MGEnv) (handle : SemaphoreHandle)
    (timeout : TickType) : countGive (construct env handle timeout).2 = 0 := by
  cases handle with
  | none => simp [construct, countGive, isGive]
  | some v =>
    by_cases hi : env.inIsr = true
    · simp [construct, hi, countGive, isGive]
    · simp [construct, hi, countGive, isGive]

theorem countGive_runOps (ops : List MGOp) :
    ∀ g : MutexGuard,
      countGive (runOps g ops).2 ≤ if g.m_taken then 1 else 0 := by
  induction ops with
  | nil =>
    intro g
    split <;> simp [runOps, countGive]
  | cons op ops ih =>
    intro g
    cases op with
    | unlockOp isr =>
      simp only [runOps, countGive, List.countP_append]
      by_cases hc : (g.m_taken && g.m_handle.isSome) = true
      · have ht : g.m_taken = true := by
          have hc' := hc
          rw [Bool.and_eq_true] at hc'
          exact hc'.1
        by_cases hisr : isr = true
        · have hu : unlock isr g = (g, [MGEvent.logE]) := by
            simp [unlock, hc, hisr]
          rw [hu]
          have := ih g
          simp only [countGive] at this
          simpa [isGive, ht] using this
        · have hisr' : isr = false := by
            cases isr
            · rfl
            · exact absurd rfl hisr
          have hu : unlock isr g = ({ g with m_taken := false }, [MGEvent.give]) := by
            simp [unlock, hc, hisr']
          rw [hu]
          have h0 : countGive (runOps { g with m_taken := false } ops).2 ≤ 0 := by
            simpa using ih { g with m_taken := false }
          simp only [countGive] at h0
          simp [isGive, ht, Nat.le_zero.1 h0]
      · have hu : unlock isr g = (g, []) := by
          simp only [unlock]
          rw [if_neg hc]
        rw [hu]
        have := ih g
        simp only [countGive] at this
        simpa using this

theorem lifetime_trace (env : MGEnv) (handle : SemaphoreHandle)
    (timeout : TickType) (ops : List MGOp) (destIsr : Bool) :
    (lifetime env handle timeout ops destIsr).2 =
      (construct env handle timeout).2 ++
        (runOps (construct env handle timeout).1
          (ops ++ [MGOp.unlockOp destIsr])).2 := by
  unfold lifetime destruct
  rw [runOps_append]
  simp [runOps]

end MutexGuard

namespace RecursiveMutexGuard

theorem unlock_not_taken_rec (isr : Bool) (g : RecursiveMutexGuard)
    (h : g.m_taken = false) : unlock isr g = (g, []) := by
  simp [unlock, h]

theorem unlock_none_rec (isr : Bool) (g : RecursiveMutexGuard)
    (h : g.m_handle = none) : unlock isr g = (g, []) := by
  simp [unlock, h]

theorem unlock_handle_rec (isr : Bool) (g : RecursiveMutexGuard) :
    (unlock isr g).1.m_handle = g.m_handle := by
  unfold unlock
  split
  · split <;> rfl
  · rfl

theorem unlock_inv_rec (isr : Bool) (g : RecursiveMutexGuard) (h : Inv g) :
    Inv (unlock isr g).1 := by
  intro hn
  rw [unlock_handle_rec] at hn
  rw [unlock_none_rec isr g hn]
  exact h hn

theorem unlock_taken_after_rec (g : RecursiveMutexGuard) (h : Inv g) :
    (unlock false g).1.m_taken = false := by
  by_cases ht : g.m_taken = true
  · have hs : g.m_handle.isSome = true := by
      cases hh : g.m_handle with
      | none => exact absurd (h hh) (by simp [ht])
      | some v => rfl
    simp [unlock, ht, hs]
  · have ht' : g.m_taken = false := by
      cases hb : g.m_taken
      · rfl
      · exact absurd hb ht
    rw [unlock_not_taken_rec false g ht']
    exact ht'

theorem runOps_none_rec (ops : List MGOp) (g : RecursiveMutexGuard)
    (h : g.m_handle = none) : runOps g ops = (g, []) := by
  induction ops with
  | nil => rfl
  | cons op ops ih =>
    cases op with
    | unlockOp isr => simp [runOps, unlock_none_rec isr g h, ih]

theorem runOps_handle_rec (ops : List MGOp) :
    ∀ g : RecursiveMutexGuard, (runOps g ops).1.m_handle = g.m_handle := by
  induction ops with
  | nil => intro g; rfl
  | cons op ops ih =>
    intro g
    cases op with
    | unlockOp isr =>
      simp only [runOps]
      rw [ih, unlock_handle_rec]

theorem runOps_inv_rec (ops : List MGOp) :
    ∀ g : RecursiveMutexGuard, Inv g → Inv (runOps g ops).1 := by
  induction ops with
  | nil => intro g h; exact h
  | cons op ops ih =>
    intro g h
    cases op with
    | unlockOp isr =>
      simp only [runOps]
      exact ih _ (unlock_inv_rec isr g h)

theorem runOps_append_rec (ops ops' : List MGOp) :
    ∀ g : RecursiveMutexGuard,
      runOps g (ops ++ ops') =
        ((runOps (runOps g ops).1 ops').1,
         (runOps g ops).2 ++ (runOps (runOps g ops).1 ops').2) := by
  induction ops with
  | nil => intro g; simp [runOps]
  | cons op ops ih =>
    intro g
    cases op with
    | unlockOp isr => simp [runOps, ih, List.append_assoc]

theorem construct_inv_rec (env : MGEnv) (handle : SemaphoreHandle) (timeout : TickType) :
    Inv (construct env handle timeout).1 := by
  cases handle with
  | none => intro _; simp [construct]
  | some v =>
    by_cases hi : env.inIsr = true
    · intro _; simp [construct, hi]
    · intro hn
      simp [construct, hi] at hn

theorem construct_taken_mem_rec (env : MGEnv) (handle : SemaphoreHandle)
    (timeout : TickType) (h : (construct env handle timeout).1.m_taken = true) :
    MGEvent.takeRecursive timeout true ∈ (construct env handle timeout).2 := by
  cases handle with
  | none => simp [construct] at h
  | some v =>
    by_cases hi : env.inIsr = true
    · simp [construct, hi] at h
    · simp [construct, hi] at h
      simp [construct, hi, h]

theorem countGiveRecursive_construct_rec (env : MGEnv) (handle : SemaphoreHandle)
    (timeout : TickType) :
    countGiveRecursive (construct env handle timeout).2 = 0 := by
  cases handle with
  | none => simp [construct, countGiveRecursive, isGiveRecursive]
  | some v =>
    by_cases hi : env.inIsr = true
    · simp [construct, hi, countGiveRecursive, isGiveRecursive]
    · simp [construct, hi, countGiveRecursive, isGiveRecursive]

theorem countGiveRecursive_runOps_rec (ops : List MGOp) :
    ∀ g : RecursiveMutexGuard,
      countGiveRecursive (runOps g ops).2 ≤ if g.m_taken then 1 else 0 := by
  induction ops with
  | nil =>
    intro g
    split <;> simp [runOps, countGiveRecursive]
  | cons op ops ih =>
    intro g
    cases op with
    | unlockOp isr =>
      simp only [runOps, countGiveRecursive, List.countP_append]
      by_cases hc : (g.m_taken && g.m_handle.isSome) = true
      · have ht : g.m_taken = true := by
          have hc' := hc
          rw [Bool.and_eq_true] at hc'
          exact hc'.1
        by_cases hisr : isr = true
        · have hu : unlock isr g = (g, [MGEvent.logE]) := by
            simp [unlock, hc, hisr]
          rw [hu]
          have := ih g
          simp only [countGiveRecursive] at this
          simpa [isGiveRecursive, ht] using this
        · have hisr' : isr = false := by
            cases isr
            · rfl
            · exact absurd rfl hisr
          have hu : unlock isr g =
              ({ g with m_taken := false }, [MGEvent.giveRecursive]) := by
            simp [unlock, hc, hisr']
          rw [hu]
          have h0 : countGiveRecursive (runOps { g with m_taken := false } ops).2 ≤ 0 := by
            simpa using ih { g with m_taken := false }
          simp only [countGiveRecursive] at h0
          simp [isGiveRecursive, ht, Nat.le_zero.1 h0]
      · have hu : unlock isr g = (g, []) := by
          simp only [unlock]
          rw [if_neg hc]
        rw [hu]
        have := ih g
        simp only [countGiveRecursive] at this
        simpa using this

theorem lifetime_trace_rec (env : MGEnv) (handle : SemaphoreHandle)
    (timeout : TickType) (ops : List MGOp) (destIsr : Bool) :
    (lifetime env handle timeout ops destIsr).2 =
      (construct env handle timeout).2 ++
        (runOps (construct env handle timeout).1
          (ops ++ [MGOp.unlockOp destIsr])).2 := by
  unfold lifetime destruct
  rw [runOps_append_rec]
  simp [runOps]

end RecursiveMutexGuard

example : (MutexGuard.construct ⟨false, true⟩ (some 1) 100).1.hasLock = true := by decide
example : (MutexGuard.construct ⟨false, false⟩ (some 1) 100).1.hasLock = false := by decide
example : (MutexGuard.construct ⟨false, true⟩ none 100).1.isValid = false := by decide
example : (MutexGuard.unlock true { m_handle := some 1, m_taken := true }).1.hasLock = true := by
  decide
example :
    countGive (MutexGuard.lifetime ⟨false, true⟩ (some 1) 100 [MGOp.unlockOp false] false).2 = 1 := by
  decide

/-- C2: constructing either guard with a null handle, for any timeout and any
environment, performs no acquisition attempt — the trace is exactly the
warning diagnostic, with no take event — and yields a guard for which
hasLock() and isValid() both return false.  Both constructors are total Lean
functions returning normally, so no crash or exception occurs. -/
theorem null_handle_construction (env : MGEnv) (timeout : TickType) :
    (MutexGuard.construct env none timeout).1.hasLock = false ∧
    (MutexGuard.construct env none timeout).1.isValid = false ∧
    (MutexGuard.construct env none timeout).2 = [MGEvent.logW] ∧
    (RecursiveMutexGuard.construct env none timeout).1.hasLock = false ∧
    (RecursiveMutexGuard.construct env none timeout).1.isValid = false ∧
    (RecursiveMutexGuard.construct env none timeout).2 = [MGEvent.logW] := by
  refine ⟨?_, ?_, ?_, ?_, ?_, ?_⟩ <;>
    simp [MutexGuard.construct, RecursiveMutexGuard.construct,
      MutexGuard.hasLock, MutexGuard.isValid,
      RecursiveMutexGuard.hasLock, RecursiveMutexGuard.isValid]

/-- C3: constructing either guard with a non-null handle in interrupt context
(the ISR query answers true), for any take-result answer and any timeout,
attempts no acquisition — the trace is exactly the error diagnostic — clears
the stored handle, and yields isValid() = false and hasLock() = false. -/
theorem isr_construction_forced_invalid (b : Bool) (v : Nat) (timeout : TickType) :
    MutexGuard.construct ⟨true, b⟩ (some v) timeout =
      ({ m_handle := none, m_taken := false }, [MGEvent.logE]) ∧
    (MutexGuard.construct ⟨true, b⟩ (some v) timeout).1.isValid = false ∧
    (MutexGuard.construct ⟨true, b⟩ (some v) timeout).1.hasLock = false ∧
    RecursiveMutexGuard.construct ⟨true, b⟩ (some v) timeout =
      ({ m_handle := none, m_taken := false }, [MGEvent.logE]) ∧
    (RecursiveMutexGuard.construct ⟨true, b⟩ (some v) timeout).1.isValid = false ∧
    (RecursiveMutexGuard.construct ⟨true, b⟩ (some v) timeout).1.hasLock = false := by
  refine ⟨?_, ?_, ?_, ?_, ?_, ?_⟩ <;>
    simp [MutexGuard.construct, RecursiveMutexGuard.construct,
      MutexGuard.hasLock, MutexGuard.isValid,
      RecursiveMutexGuard.hasLock, RecursiveMutexGuard.isValid]

/-- C7: for a guard constructed with a non-null handle outside interrupt
context, isValid() returns true whatever the take result was; and isValid()
of any guard state depends only on the stored handle, not on the held flag. -/
theorem isValid_independent_of_lock (b : Bool) (v : Nat) (timeout : TickType) :
    (MutexGuard.construct ⟨false, b⟩ (some v) timeout).1.isValid = true ∧
    (RecursiveMutexGuard.construct ⟨false, b⟩ (some v) timeout).1.isValid = true ∧
    (∀ g g' : MutexGuard, g.m_handle = g'.m_handle → g.isValid = g'.isValid) ∧
    (∀ g g' : RecursiveMutexGuard, g.m_handle = g'.m_handle →
      g.isValid = g'.isValid) := by
  refine ⟨?_, ?_, ?_, ?_⟩
  · simp [MutexGuard.construct, MutexGuard.isValid]
  · simp [RecursiveMutexGuard.construct, RecursiveMutexGuard.isValid]
  · intro g g' h
    simp [MutexGuard.isValid, h]
  · intro g g' h
    simp [RecursiveMutexGuard.isValid, h]

/-- C7 witness: the independence clause applied to two concrete states that
share a handle but differ in the held flag. -/
theorem isValid_independent_of_lock_witness :
    MutexGuard.isValid { m_handle := some 5, m_taken := true } =
      MutexGuard.isValid { m_handle := some 5, m_taken := false } :=
  (isValid_independent_of_lock false 1 100).2.2.1
    { m_handle := some 5, m_taken := true }
    { m_handle := some 5, m_taken := false } rfl

/-- C8: for a guard constructed with a non-null handle outside interrupt
context whose timed acquire fails, the constructor returns normally (it is a
total function yielding exactly the state and trace below), the only trace
entry is the failed take — no error diagnostic — and the outcome is
observable through hasLock() = false while isValid() = true. -/
theorem timeout_is_normal_outcome (v : Nat) (timeout : TickType) :
    MutexGuard.construct ⟨false, false⟩ (some v) timeout =
      ({ m_handle := some v, m_taken := false }, [MGEvent.take timeout false]) ∧
    (MutexGuard.construct ⟨false, false⟩ (some v) timeout).1.hasLock = false ∧
    (MutexGuard.construct ⟨false, false⟩ (some v) timeout).1.isValid = true ∧
    RecursiveMutexGuard.construct ⟨false, false⟩ (some v) timeout =
      ({ m_handle := some v, m_taken := false },
       [MGEvent.takeRecursive timeout false]) ∧
    (RecursiveMutexGuard.construct ⟨false, false⟩ (some v) timeout).1.hasLock = false ∧
    (RecursiveMutexGuard.construct ⟨false, false⟩ (some v) timeout).1.isValid = true := by
  refine ⟨?_, ?_, ?_, ?_, ?_, ?_⟩ <;>
    simp [MutexGuard.construct, RecursiveMutexGuard.construct,
      MutexGuard.hasLock, MutexGuard.isValid,
      RecursiveMutexGuard.hasLock, RecursiveMutexGuard.isValid]

/-- C1 counterexample: a guard that holds the lock (non-null handle, held
flag set) and whose unlock() runs in interrupt context keeps its state
unchanged — hasLock() returns true afterwards, not false as the claim
states. -/
theorem unlock_isr_keeps_lock_cex :
    (MutexGuard.unlock true { m_handle := some 1, m_taken := true }).1 =
      { m_handle := some 1, m_taken := true } ∧
    (MutexGuard.unlock true { m_handle := some 1, m_taken := true }).1.hasLock
      = true := by
  decide

/-- C1 (amended): for every guard that currently holds the lock (held flag
set, non-null handle), an unlock() in interrupt context is refused: the
release primitive is not called, only an error is logged, the state is
unchanged, and hasLock() still returns true afterwards — the guard remains
locked. -/
theorem unlock_isr_refused (g : MutexGuard) (r : RecursiveMutexGuard)
    (hg : g.m_taken = true) (hgh : g.m_handle.isSome = true)
    (hr : r.m_taken = true) (hrh : r.m_handle.isSome = true) :
    MutexGuard.unlock true g = (g, [MGEvent.logE]) ∧
    (MutexGuard.unlock true g).1.hasLock = true ∧
    RecursiveMutexGuard.unlock true r = (r, [MGEvent.logE]) ∧
    (RecursiveMutexGuard.unlock true r).1.hasLock = true := by
  refine ⟨?_, ?_, ?_, ?_⟩ <;>
    simp [MutexGuard.unlock, RecursiveMutexGuard.unlock,
      MutexGuard.hasLock, RecursiveMutexGuard.hasLock, hg, hgh, hr, hrh]

/-- C1 witness: the amended theorem applied to concrete held guards. -/
theorem unlock_isr_refused_witness :
    MutexGuard.unlock true { m_handle := some 1, m_taken := true } =
      ({ m_handle := some 1, m_taken := true }, [MGEvent.logE]) ∧
    RecursiveMutexGuard.unlock true { m_handle := some 2, m_taken := true } =
      ({ m_handle := some 2, m_taken := true }, [MGEvent.logE]) :=
  ⟨(unlock_isr_refused { m_handle := some 1, m_taken := true }
      { m_handle := some 2, m_taken := true } rfl rfl rfl rfl).1,
   (unlock_isr_refused { m_handle := some 1, m_taken := true }
      { m_handle := some 2, m_taken := true } rfl rfl rfl rfl).2.2.1⟩

/-- C4: across any sequence of operations on a guard instance (unlock calls
with arbitrary ISR answers; destruction behaves as unlock, and hasLock /
isValid are const), if the stored handle is null at some point then the held
flag is false at that point, and both the null handle and the unheld state
persist through every further operation of that instance's lifetime. -/
theorem null_handle_invariant (env : MGEnv) (handle : SemaphoreHandle)
    (timeout : TickType) (ops ops' : List MGOp)
    (h : (MutexGuard.runOps (MutexGuard.construct env handle timeout).1
      ops).1.m_handle = none)
    (hr : (RecursiveMutexGuard.runOps
      (RecursiveMutexGuard.construct env handle timeout).1 ops).1.m_handle
        = none) :
    (MutexGuard.runOps (MutexGuard.construct env handle timeout).1
      ops).1.m_taken = false ∧
    (MutexGuard.runOps (MutexGuard.construct env handle timeout).1
      (ops ++ ops')).1.m_handle = none ∧
    (MutexGuard.runOps (MutexGuard.construct env handle timeout).1
      (ops ++ ops')).1.m_taken = false ∧
    (RecursiveMutexGuard.runOps
      (RecursiveMutexGuard.construct env handle timeout).1 ops).1.m_taken
        = false ∧
    (RecursiveMutexGuard.runOps
      (RecursiveMutexGuard.construct env handle timeout).1
        (ops ++ ops')).1.m_handle = none ∧
    (RecursiveMutexGuard.runOps
      (RecursiveMutexGuard.construct env handle timeout).1
        (ops ++ ops')).1.m_taken = false := by
  have hc : (MutexGuard.construct env handle timeout).1.m_handle = none := by
    rw [← MutexGuard.runOps_handle ops]
    exact h
  have ht : (MutexGuard.construct env handle timeout).1.m_taken = false :=
    MutexGuard.construct_inv env handle timeout hc
  have hn1 := MutexGuard.runOps_none ops _ hc
  have hn2 := MutexGuard.runOps_none (ops ++ ops') _ hc
  have hcr : (RecursiveMutexGuard.construct env handle timeout).1.m_handle
      = none := by
    rw [← RecursiveMutexGuard.runOps_handle_rec ops]
    exact hr
  have htr : (RecursiveMutexGuard.construct env handle timeout).1.m_taken
      = false := RecursiveMutexGuard.construct_inv_rec env handle timeout hcr
  have hnr1 := RecursiveMutexGuard.runOps_none_rec ops _ hcr
  have hnr2 := RecursiveMutexGuard.runOps_none_rec (ops ++ ops') _ hcr
  refine ⟨?_, ?_, ?_, ?_, ?_, ?_⟩
  · rw [hn1]; exact ht
  · rw [hn2]; exact hc
  · rw [hn2]; exact ht
  · rw [hnr1]; exact htr
  · rw [hnr2]; exact hcr
  · rw [hnr2]; exact htr

/-- C4 witness: the invariant theorem applied to a null-handle construction
with concrete operation sequences. -/
theorem null_handle_invariant_witness :
    (MutexGuard.runOps (MutexGuard.construct ⟨false, true⟩ none 100).1
      ([MGOp.unlockOp false] ++ [MGOp.unlockOp true])).1.m_taken = false :=
  (null_handle_invariant ⟨false, true⟩ none 100 [MGOp.unlockOp false]
    [MGOp.unlockOp true] (by decide) (by decide)).2.2.1

/-- C5: unlock() is idempotent.  First clauses: on any guard state whose held
flag is clear, unlock() — in or out of interrupt context — is a no-op that
changes nothing and calls no primitive.  Last clauses: on any state reachable
by construction followed by any operation sequence, a non-ISR unlock() leaves
hasLock() = false, and a second non-ISR unlock() right after it changes
nothing, calls no primitive and logs no error. -/
theorem unlock_idempotent :
    (∀ (g : MutexGuard) (isr : Bool), g.m_taken = false →
      MutexGuard.unlock isr g = (g, [])) ∧
    (∀ (r : RecursiveMutexGuard) (isr : Bool), r.m_taken = false →
      RecursiveMutexGuard.unlock isr r = (r, [])) ∧
    (∀ (env : MGEnv) (handle : SemaphoreHandle) (timeout : TickType)
      (ops : List MGOp),
      (MutexGuard.unlock false (MutexGuard.runOps
        (MutexGuard.construct env handle timeout).1 ops).1).1.hasLock = false ∧
      MutexGuard.unlock false (MutexGuard.unlock false (MutexGuard.runOps
        (MutexGuard.construct env handle timeout).1 ops).1).1 =
      ((MutexGuard.unlock false (MutexGuard.runOps
        (MutexGuard.construct env handle timeout).1 ops).1).1, [])) ∧
    (∀ (env : MGEnv) (handle : SemaphoreHandle) (timeout : TickType)
      (ops : List MGOp),
      (RecursiveMutexGuard.unlock false (RecursiveMutexGuard.runOps
        (RecursiveMutexGuard.construct env handle timeout).1 ops).1).1.hasLock
          = false ∧
      RecursiveMutexGuard.unlock false (RecursiveMutexGuard.unlock false
        (RecursiveMutexGuard.runOps
          (RecursiveMutexGuard.construct env handle timeout).1 ops).1).1 =
      ((RecursiveMutexGuard.unlock false (RecursiveMutexGuard.runOps
        (RecursiveMutexGuard.construct env handle timeout).1 ops).1).1, [])) := by
  refine ⟨?_, ?_, ?_, ?_⟩
  · intro g isr h
    exact MutexGuard.unlock_not_taken isr g h
  · intro r isr h
    exact RecursiveMutexGuard.unlock_not_taken_rec isr r h
  · intro env handle timeout ops
    have hinv : MutexGuard.Inv (MutexGuard.runOps
        (MutexGuard.construct env handle timeout).1 ops).1 :=
      MutexGuard.runOps_inv ops _ (MutexGuard.construct_inv env handle timeout)
    have h1 := MutexGuard.unlock_taken_after _ hinv
    exact ⟨h1, MutexGuard.unlock_not_taken false _ h1⟩
  · intro env handle timeout ops
    have hinv : RecursiveMutexGuard.Inv (RecursiveMutexGuard.runOps
        (RecursiveMutexGuard.construct env handle timeout).1 ops).1 :=
      RecursiveMutexGuard.runOps_inv_rec ops _
        (RecursiveMutexGuard.construct_inv_rec env handle timeout)
    have h1 := RecursiveMutexGuard.unlock_taken_after_rec _ hinv
    exact ⟨h1, RecursiveMutexGuard.unlock_not_taken_rec false _ h1⟩

/-- C5 witness: the no-op clause applied to a concrete unheld state, and the
double-unlock clause applied to a concretely constructed guard. -/
theorem unlock_idempotent_witness :
    MutexGuard.unlock true { m_handle := some 1, m_taken := false } =
      ({ m_handle := some 1, m_taken := false }, []) ∧
    RecursiveMutexGuard.unlock false { m_handle := none, m_taken := false } =
      ({ m_handle := none, m_taken := false }, []) ∧
    (MutexGuard.unlock false (MutexGuard.runOps
      (MutexGuard.construct ⟨false, true⟩ (some 1) 100).1 []).1).1.hasLock
        = false :=
  ⟨unlock_idempotent.1 { m_handle := some 1, m_taken := false } true rfl,
   unlock_idempotent.2.1 { m_handle := none, m_taken := false } false rfl,
   (unlock_idempotent.2.2.1 ⟨false, true⟩ (some 1) 100 []).1⟩

/-- C6: destruction has exactly the effect of unlock(): the destructor is the
same function on states and traces; when the lock is held with a non-null
handle outside interrupt context it releases the mutex (one give call) and
clears the held flag, and when the lock is not held it releases nothing and
changes nothing. -/
theorem destructor_equals_unlock :
    (∀ (isr : Bool) (g : MutexGuard),
      MutexGuard.destruct isr g = MutexGuard.unlock isr g) ∧
    (∀ (isr : Bool) (r : RecursiveMutexGuard),
      RecursiveMutexGuard.destruct isr r = RecursiveMutexGuard.unlock isr r) ∧
    (∀ g : MutexGuard, g.m_taken = true → g.m_handle.isSome = true →
      MutexGuard.destruct false g =
        ({ g with m_taken := false }, [MGEvent.give])) ∧
    (∀ r : RecursiveMutexGuard, r.m_taken = true → r.m_handle.isSome = true →
      RecursiveMutexGuard.destruct false r =
        ({ r with m_taken := false }, [MGEvent.giveRecursive])) ∧
    (∀ (isr : Bool) (g : MutexGuard), g.m_taken = false →
      MutexGuard.destruct isr g = (g, [])) ∧
    (∀ (isr : Bool) (r : RecursiveMutexGuard), r.m_taken = false →
      RecursiveMutexGuard.destruct isr r = (r, [])) := by
  refine ⟨?_, ?_, ?_, ?_, ?_, ?_⟩
  · intro isr g; rfl
  · intro isr r; rfl
  · intro g h hh
    simp [MutexGuard.destruct, MutexGuard.unlock, h, hh]
  · intro r h hh
    simp [RecursiveMutexGuard.destruct, RecursiveMutexGuard.unlock, h, hh]
  · intro isr g h
    exact MutexGuard.unlock_not_taken isr g h
  · intro isr r h
    exact RecursiveMutexGuard.unlock_not_taken_rec isr r h

/-- C6 witness: the release clause and the no-op clause applied to concrete
states. -/
theorem destructor_equals_unlock_witness :
    MutexGuard.destruct false { m_handle := some 1, m_taken := true } =
      ({ m_handle := some 1, m_taken := false }, [MGEvent.give]) ∧
    RecursiveMutexGuard.destruct true { m_handle := some 2, m_taken := false } =
      ({ m_handle := some 2, m_taken := false }, []) :=
  ⟨destructor_equals_unlock.2.2.1 { m_handle := some 1, m_taken := true }
      rfl rfl,
   destructor_equals_unlock.2.2.2.2.2 true
      { m_handle := some 2, m_taken := false } rfl⟩

theorem countGive_append (a b : List MGEvent) :
    countGive (a ++ b) = countGive a + countGive b :=
  List.countP_append isGive a b

theorem countGiveRecursive_append (a b : List MGEvent) :
    countGiveRecursive (a ++ b) =
      countGiveRecursive a + countGiveRecursive b :=
  List.countP_append isGiveRecursive a b

/-- C9: RecursiveMutexGuard refines MutexGuard.  Under the field-preserving
state map `toRecursive` and the event substitution `substRecursive` that
replaces the non-recursive acquire/release primitives by the recursive ones,
the recursive constructor, unlock and destructor compute exactly what the
non-recursive ones compute, and hasLock / isValid / the bool conversion
agree.  The final clause shows `toRecursive` reaches every recursive state:
both wrappers carry exactly one handle and one held/not-held flag, so all
nesting-depth bookkeeping lives in the underlying recursive primitive. -/
theorem recursive_refines_nonrecursive :
    (∀ (env : MGEnv) (handle : SemaphoreHandle) (timeout : TickType),
      RecursiveMutexGuard.construct env handle timeout =
        (toRecursive (MutexGuard.construct env handle timeout).1,
         (MutexGuard.construct env handle timeout).2.map substRecursive)) ∧
    (∀ (isr : Bool) (g : MutexGuard),
      RecursiveMutexGuard.unlock isr (toRecursive g) =
        (toRecursive (MutexGuard.unlock isr g).1,
         (MutexGuard.unlock isr g).2.map substRecursive)) ∧
    (∀ (isr : Bool) (g : MutexGuard),
      RecursiveMutexGuard.destruct isr (toRecursive g) =
        (toRecursive (MutexGuard.destruct isr g).1,
         (MutexGuard.destruct isr g).2.map substRecursive)) ∧
    (∀ g : MutexGuard, (toRecursive g).hasLock = g.hasLock) ∧
    (∀ g : MutexGuard, (toRecursive g).isValid = g.isValid) ∧
    (∀ g : MutexGuard, (toRecursive g).toBool = g.toBool) ∧
    (∀ r : RecursiveMutexGuard,
      toRecursive { m_handle := r.m_handle, m_taken := r.m_taken } = r) := by
  have hu : ∀ (isr : Bool) (g : MutexGuard),
      RecursiveMutexGuard.unlock isr (toRecursive g) =
        (toRecursive (MutexGuard.unlock isr g).1,
         (MutexGuard.unlock isr g).2.map substRecursive) := by
    intro isr g
    by_cases hc : (g.m_taken && g.m_handle.isSome) = true
    · by_cases hisr : isr = true
      · simp [MutexGuard.unlock, RecursiveMutexGuard.unlock, toRecursive,
          substRecursive, hc, hisr]
      · simp [MutexGuard.unlock, RecursiveMutexGuard.unlock, toRecursive,
          substRecursive, hc, hisr]
    · simp only [MutexGuard.unlock, RecursiveMutexGuard.unlock, toRecursive]
      rw [if_neg hc, if_neg hc]
      simp
  refine ⟨?_, hu, ?_, ?_, ?_, ?_, ?_⟩
  · intro env handle timeout
    cases handle with
    | none =>
      simp [MutexGuard.construct, RecursiveMutexGuard.construct, toRecursive,
        substRecursive]
    | some v =>
      by_cases hi : env.inIsr = true
      · simp [MutexGuard.construct, RecursiveMutexGuard.construct, toRecursive,
          substRecursive, hi]
      · simp [MutexGuard.construct, RecursiveMutexGuard.construct, toRecursive,
          substRecursive, hi]
  · intro isr g
    exact hu isr g
  · intro g; rfl
  · intro g; rfl
  · intro g; rfl
  · intro r; rfl

/-- C10: over one complete lifetime of a guard instance — construction, any
sequence of unlock() calls with arbitrary ISR answers, then destruction —
the release primitive is called at most once, and it is called only if the
trace of the construction contains a successful acquire.  In particular no
unbalanced release can be produced through the public interface. -/
theorem release_at_most_once (env : MGEnv) (handle : SemaphoreHandle)
    (timeout : TickType) (ops : List MGOp) (destIsr : Bool) :
    countGive (MutexGuard.lifetime env handle timeout ops destIsr).2 ≤ 1 ∧
    (1 ≤ countGive (MutexGuard.lifetime env handle timeout ops destIsr).2 →
      MGEvent.take timeout true ∈ (MutexGuard.construct env handle timeout).2) ∧
    countGiveRecursive
      (RecursiveMutexGuard.lifetime env handle timeout ops destIsr).2 ≤ 1 ∧
    (1 ≤ countGiveRecursive
        (RecursiveMutexGuard.lifetime env handle timeout ops destIsr).2 →
      MGEvent.takeRecursive timeout true ∈
        (RecursiveMutexGuard.construct env handle timeout).2) := by
  have htr := MutexGuard.lifetime_trace env handle timeout ops destIsr
  have hc0 := MutexGuard.countGive_construct env handle timeout
  have hrun := MutexGuard.countGive_runOps (ops ++ [MGOp.unlockOp destIsr])
    (MutexGuard.construct env handle timeout).1
  have htotal :
      countGive (MutexGuard.lifetime env handle timeout ops destIsr).2 =
        countGive (MutexGuard.runOps (MutexGuard.construct env handle timeout).1
          (ops ++ [MGOp.unlockOp destIsr])).2 := by
    rw [htr, countGive_append, hc0, Nat.zero_add]
  have htrR := RecursiveMutexGuard.lifetime_trace_rec env handle timeout ops destIsr
  have hc0R := RecursiveMutexGuard.countGiveRecursive_construct_rec env handle timeout
  have hrunR := RecursiveMutexGuard.countGiveRecursive_runOps_rec
    (ops ++ [MGOp.unlockOp destIsr])
    (RecursiveMutexGuard.construct env handle timeout).1
  have htotalR :
      countGiveRecursive
          (RecursiveMutexGuard.lifetime env handle timeout ops destIsr).2 =
        countGiveRecursive (RecursiveMutexGuard.runOps
          (RecursiveMutexGuard.construct env handle timeout).1
          (ops ++ [MGOp.unlockOp destIsr])).2 := by
    rw [htrR, countGiveRecursive_append, hc0R, Nat.zero_add]
  refine ⟨?_, ?_, ?_, ?_⟩
  · rw [htotal]
    refine le_trans hrun ?_
    split <;> omega
  · intro hge
    rw [htotal] at hge
    by_cases ht : (MutexGuard.construct env handle timeout).1.m_taken = true
    · exact MutexGuard.construct_taken_mem env handle timeout ht
    · exfalso
      have ht' : (MutexGuard.construct env handle timeout).1.m_taken = false := by
        cases hb : (MutexGuard.construct env handle timeout).1.m_taken
        · rfl
        · exact absurd hb ht
      rw [ht'] at hrun
      simp at hrun
      omega
  · rw [htotalR]
    refine le_trans hrunR ?_
    split <;> omega
  · intro hge
    rw [htotalR] at hge
    by_cases ht : (RecursiveMutexGuard.construct env handle timeout).1.m_taken
        = true
    · exact RecursiveMutexGuard.construct_taken_mem_rec env handle timeout ht
    · exfalso
      have ht' : (RecursiveMutexGuard.construct env handle timeout).1.m_taken
          = false := by
        cases hb : (RecursiveMutexGuard.construct env handle timeout).1.m_taken
        · rfl
        · exact absurd hb ht
      rw [ht'] at hrunR
      simp at hrunR
      omega

/-- C10 witness: the acquired-implies-take clauses applied to a concretely
constructed and destroyed guard whose lifetime trace contains one release. -/
theorem release_at_most_once_witness :
    MGEvent.take 100 true ∈ (MutexGuard.construct ⟨false, true⟩ (some 1) 100).2 ∧
    MGEvent.takeRecursive 100 true ∈
      (RecursiveMutexGuard.construct ⟨false, true⟩ (some 1) 100).2 :=
  ⟨(release_at_most_once ⟨false, true⟩ (some 1) 100 [] false).2.1 (by decide),
   (release_at_most_once ⟨false, true⟩ (some 1) 100 [] false).2.2.2 (by decide)⟩
